import Mathlib

/-!
Verification of the category-aware product extraction and persistence
pipeline of the Chaldal scraping agent (`final-ai-agent.py`, with the
companion category-verification script `extract_verified_categories.py`).

The Python functions are shallowly embedded as executable Lean
definitions.  Browser observations (page titles, element counts, the
text of DOM sub-elements) and clock readings are passed in as explicit
parameters, since they are inputs the program reads from the outside
world; everything the program computes from them is translated
faithfully from the source.  SQLite tables are modelled as lists of
row structures in insertion (rowid) order.
-/

/-! ## String utilities

Helpers mirroring the Python string primitives the source uses:
`str.lower()` (ASCII), the substring test `a in b`, and
`str.replace(' ', '-')`.  They are written over `List Char` so that
every definition is executable by the kernel.
-/

/-- `leadsWith a b` is true when the list `a` is an initial segment of `b`. -/
def leadsWith : List Char → List Char → Bool
  | [], _ => true
  | _ :: _, [] => false
  | a :: as, b :: bs => a == b && leadsWith as bs

/-- `infixCheck n h` is true when `n` occurs contiguously inside `h`
(the semantics of Python's `n in h` on strings, including the empty
needle). -/
def infixCheck (n : List Char) : List Char → Bool
  | [] => n.isEmpty
  | c :: t => leadsWith n (c :: t) || infixCheck n t

/-- `substrOf needle hay` models Python's `needle in hay` for strings. -/
def substrOf (needle hay : String) : Bool :=
  infixCheck needle.data hay.data

/-- ASCII lower-casing, modelling Python's `str.lower()` on the ASCII
strings this program manipulates. -/
def lowerStr (s : String) : String :=
  String.mk (s.data.map Char.toLower)

/-- Models `s.lower().replace(' ', '-')`: the fallback URL slug built by
`get_category_url`. -/
def slugify (s : String) : String :=
  String.mk ((lowerStr s).data.map (fun c => if c = ' ' then '-' else c))

/-! ## Numeric coercion and discount formatting (`extract_price_info`)

`extract_price_info` runs `float(re.sub(r'[^\d.]', '', raw))` on the two
price strings and computes `((orig_val - disc_val) / orig_val) * 100`,
rendered by `f"{discount:.1f}%"`.  The parsed value is an exact decimal,
represented here as a numerator together with a power-of-ten scale so
that all arithmetic stays kernel-computable; the theorems below relate
the computation to the textbook rational formula. -/

/-- The exact value `num / 10 ^ scale` that Python's `float` parsed from
a digits-and-dots string (the binary rounding of `float` is abstracted
to the exact decimal it denotes). -/
structure DecNum where
  num : ℕ
  scale : ℕ
deriving DecidableEq, Repr

/-- The rational value of a parsed decimal. -/
def DecNum.toRat (p : DecNum) : ℚ :=
  (p.num : ℚ) / 10 ^ p.scale

/-- Value of a list of decimal digit characters read left to right. -/
def digitsVal (l : List Char) : Nat :=
  l.foldl (fun a c => a * 10 + (c.toNat - 48)) 0

/-- Models `float(re.sub(r'[^\d.]', '', s))` from `extract_price_info`:
strip every character that is not a digit or a dot, then parse the rest
as Python's `float` does.  On a digits-and-dots string `float` succeeds
exactly when there is at most one dot and at least one digit; the value
is the usual decimal reading. -/
def coerceNumeric (s : String) : Option DecNum :=
  let l := s.data.filter (fun c => c.isDigit || c == '.')
  if l.count '.' ≤ 1 ∧ l.any Char.isDigit then
    let ip := l.takeWhile (fun c => c != '.')
    let fp := (l.dropWhile (fun c => c != '.')).tail
    some ⟨digitsVal ip * 10 ^ fp.length + digitsVal fp, fp.length⟩
  else
    none

/-- Round-half-to-even of the fraction `N / D` (for `0 < D`), the
rounding Python's `format` applies when producing `f"{x:.1f}"` (exact
half-way ties at the binary-float level are abstracted to exact
rational ties). -/
def halfEvenRoundFrac (N : ℤ) (D : ℕ) : ℤ :=
  let f := N / (D : ℤ)
  let r2 := 2 * (N - f * D)
  if r2 < (D : ℤ) then f
  else if (D : ℤ) < r2 then f + 1
  else if f % 2 = 0 then f else f + 1

/-- Round-half-to-even on ℚ, stated abstractly; `halfEvenRoundFrac` is
its executable form on fractions. -/
def halfEvenRound (q : ℚ) : ℤ :=
  let n := ⌊q⌋
  let r := q - n
  if r < 1 / 2 then n
  else if 1 / 2 < r then n + 1
  else if n % 2 = 0 then n else n + 1

/-- Renders a number of tenths as Python's `f"{x:.1f}%"` does: one
decimal place and a trailing percent sign. -/
def formatTenths (m : ℤ) : String :=
  let s := toString (m.natAbs / 10) ++ "." ++ toString (m.natAbs % 10)
  (if m < 0 then "-" ++ s else s) ++ "%"

/-- `f"{q:.1f}%"` for an exact rational `q`. -/
def formatPct1 (q : ℚ) : String :=
  formatTenths (halfEvenRound (q * 10))

/-- The number of tenths in `((orig - disc) / orig) * 100` computed over
the exact parsed decimals: with `disc = dn / 10 ^ ds` and
`orig = on / 10 ^ os` the quantity equals
`1000 * (on * 10 ^ ds - dn * 10 ^ os) / (on * 10 ^ ds)`, rounded
half-to-even. -/
def discountTenths (disc orig : DecNum) : ℤ :=
  halfEvenRoundFrac
    (1000 * ((orig.num : ℤ) * 10 ^ disc.scale - (disc.num : ℤ) * 10 ^ orig.scale))
    (orig.num * 10 ^ disc.scale)

/-- The three price-bearing sub-elements of one product element, as the
`safe_text` calls in `extract_price_info` observe them: the text of the
`discountedPrice`, `originalPrice` and `price` class nodes, with `""`
standing for a missing sub-element (`safe_text` returns `""` on
`NoSuchElementException`). -/
structure PriceElem where
  discountedPrice : String
  originalPrice : String
  price : String
deriving DecidableEq, Repr

/-- The dictionary `extract_price_info` returns. -/
structure PriceInfo where
  price : String
  original_price : String
  discount_percentage : String
deriving DecidableEq, Repr

/-- Embedding of `extract_price_info` (final-ai-agent.py lines 198-232):
prefer the discounted price; when both a discounted and an original
price are present, try to coerce both to numbers and, when the original
is positive (a parsed decimal is positive exactly when its numerator
is), record the percentage discount; any coercion failure or a zero
original leaves the discount empty.  Without a discounted price, fall
back to the plain `price` field. -/
def extract_price_info (e : PriceElem) : PriceInfo :=
  if e.discountedPrice = "" then
    { price := e.price, original_price := "", discount_percentage := "" }
  else if e.originalPrice = "" then
    { price := e.discountedPrice, original_price := "", discount_percentage := "" }
  else
    { price := e.discountedPrice
      original_price := e.originalPrice
      discount_percentage :=
        match coerceNumeric e.discountedPrice, coerceNumeric e.originalPrice with
        | some disc, some orig =>
            if 0 < orig.num then formatTenths (discountTenths disc orig) else ""
        | _, _ => "" }

/-! ## Scroll loop (`scroll_to_load_products`) -/

/-- Module-level constant `MAX_SCROLLS` (final-ai-agent.py line 76). -/
def MAX_SCROLLS : Nat := 20

/-- Module-level constant `REQUEST_TIMEOUT`, the wait budget in seconds
for the first product element (final-ai-agent.py line 78). -/
def REQUEST_TIMEOUT : Nat := 15

/-- One step of the `while` loop of `scroll_to_load_products`.  The
page heights the browser reports are an input stream `heights`:
`heights 0` is the height read before the loop and `heights k` the one
read after the `k`-th scroll.  `last` is `last_height`, `count` is
`scroll_count` and `noChange` is `no_change_count`; the function
returns the final `scroll_count`, i.e. the number of scroll rounds
performed. -/
def scrollGo (heights : Nat → Nat) (max_scrolls last count noChange : Nat) : Nat :=
  if h : count < max_scrolls ∧ noChange < 3 then
    let newH := heights (count + 1)
    scrollGo heights max_scrolls newH (count + 1) (if newH = last then noChange + 1 else 0)
  else count
termination_by max_scrolls - count
decreasing_by omega

/-- Embedding of `scroll_to_load_products` (final-ai-agent.py lines
234-262): scroll until `max_scrolls` rounds have run or three
consecutive rounds observe no height change; returns the number of
rounds performed. -/
def scroll_to_load_products (heights : Nat → Nat) (max_scrolls : Nat := MAX_SCROLLS) : Nat :=
  scrollGo heights max_scrolls (heights 0) 0 0

/-! ## Database model

`chaldal_products.db` as `init_database` creates it: a `products` table
with `UNIQUE(name, category, subcategory)` and a `scraping_logs` table.
Tables are lists of rows in rowid order.  Column values the scraper
never populates (`description`, `brand`, …) are omitted; `subcategory`
is kept because the uniqueness constraint mentions it (the scraper
always leaves it NULL, and SQLite treats NULLs as distinct in a UNIQUE
constraint). -/

/-- A row of the `products` table (the columns the pipeline reads or
writes). -/
structure ProductRow where
  name : String
  price : String
  original_price : String
  discount_percentage : String
  quantity : String
  category : String
  product_url : String
  image_url : String
  subcategory : Option String
  scraped_at : Nat
deriving DecidableEq, Repr

/-- A row of the `scraping_logs` table. -/
structure LogRow where
  category : String
  products_found : Nat
  products_saved : Nat
  status : String
  error_message : Option String
  duration_seconds : Nat
deriving DecidableEq, Repr

/-- The database: the two tables the scrape pipeline touches. -/
structure DB where
  products : List ProductRow
  logs : List LogRow
deriving DecidableEq, Repr

/-- SQLite's NULL-aware equality on the `subcategory` column inside the
UNIQUE constraint: two NULLs are distinct. -/
def sameSubcat : Option String → Option String → Bool
  | some a, some b => a == b
  | _, _ => false

/-- Whether an existing row `x` collides with an inserted row `r` under
`UNIQUE(name, category, subcategory)`. -/
def conflictsWith (x r : ProductRow) : Bool :=
  x.name == r.name && x.category == r.category && sameSubcat x.subcategory r.subcategory

/-- `INSERT OR REPLACE`: drop any row that collides under the UNIQUE
constraint, then append the new row. -/
def insertOrReplace (db : List ProductRow) (r : ProductRow) : List ProductRow :=
  db.filter (fun x => !(conflictsWith x r)) ++ [r]

/-- The category-replacement step of `scrape_product_data` (lines
513-541): `DELETE FROM products WHERE category = ?` followed by an
`INSERT OR REPLACE` of each freshly extracted row. -/
def replaceCategory (category : String) (rows : List ProductRow) (db : List ProductRow) : List ProductRow :=
  rows.foldl insertOrReplace (db.filter (fun r => !(r.category == category)))

/-- The `product_data` dictionary built for one extracted item (lines
490-500; the `scraped_url` entry is dropped again before the insert, so
it is not modelled). -/
structure ProductData where
  name : String
  price : String
  original_price : String
  discount_percentage : String
  quantity : String
  category : String
  product_url : String
  image_url : String
deriving DecidableEq, Repr

/-- The `products` row inserted for one `product_data` dictionary, with
`scraped_at := datetime.now()` passed in as `t` and `subcategory` left
NULL (it is not among the insert columns). -/
def rowOfData (t : Nat) (p : ProductData) : ProductRow :=
  ⟨p.name, p.price, p.original_price, p.discount_percentage, p.quantity,
   p.category, p.product_url, p.image_url, none, t⟩

/-- The content part of a `products` row: every inserted column except
the `scraped_at` timestamp. -/
def rowContent (r : ProductRow) : ProductData :=
  ⟨r.name, r.price, r.original_price, r.discount_percentage, r.quantity,
   r.category, r.product_url, r.image_url⟩

/-- What the per-item extraction loop of `scrape_product_data` (lines
460-510) observes about one element of class `product`: the `safe_text`
results for `name`, the three price nodes and `subText`, and the
`href`/`src` attribute lookups (`""` when the lookup fails). -/
structure RawItem where
  name : String
  discountedPrice : String
  originalPrice : String
  regularPrice : String
  subText : String
  productUrl : String
  imageUrl : String
deriving DecidableEq, Repr

/-- The body of the per-item loop: an item with an empty name is
skipped (`if not name: continue`); otherwise the price info and the
remaining fields are assembled into a `product_data` dictionary. -/
def extract_item (category : String) (it : RawItem) : Option ProductData :=
  if it.name = "" then none
  else
    let pr := extract_price_info ⟨it.discountedPrice, it.originalPrice, it.regularPrice⟩
    some ⟨it.name, pr.price, pr.original_price, pr.discount_percentage,
          it.subText, category, it.productUrl, it.imageUrl⟩

/-- How one invocation's interaction with the page resolves:
`timeout` when no element of class `product` appears within
`REQUEST_TIMEOUT` seconds (the caught `TimeoutException`), `loaded`
when the wait succeeds and the fully scrolled page yields the given
item observations, `crash` when any other exception escapes the scrape
body and is caught by the outer handler (its message is the argument). -/
inductive PageOutcome where
  | crash (msg : String)
  | timeout
  | loaded (items : List RawItem)
deriving DecidableEq, Repr

/-- The success summary string (line 556; the `:.1f`-formatted duration
is abstracted by `toString`). -/
def successMessage (n : Nat) (category : String) (dur : Nat) : String :=
  "✅ Successfully scraped " ++ toString n ++ " products from " ++ category ++
    " category in " ++ toString dur ++ " seconds"

/-- Embedding of `scrape_product_data` (final-ai-agent.py lines
415-578) from the point where the page interaction resolves: `t` is
the `datetime.now()` used for `scraped_at`, `dur` the measured
duration.  On `timeout` the function returns the no-products message
without touching the database; on `loaded` the items are extracted
and, only when the extracted list is non-empty, the category's rows
are replaced and a success log row is appended; on `crash` an error
log row is appended.  Returns the summary string and the new database
state. -/
def scrape_product_data (category : String) (page : PageOutcome) (t dur : Nat) (db : DB) : String × DB :=
  match page with
  | .crash msg =>
      ("❌ Error scraping " ++ category ++ ": " ++ msg,
       ⟨db.products, db.logs ++ [⟨category, 0, 0, "error", some msg, dur⟩]⟩)
  | .timeout =>
      ("❌ No products found for category: " ++ category, db)
  | .loaded items =>
      let products_data := items.filterMap (extract_item category)
      let msg := successMessage products_data.length category dur
      if products_data.isEmpty then (msg, db)
      else
        (msg,
         ⟨replaceCategory category (products_data.map (rowOfData t)) db.products,
          db.logs ++ [⟨category, items.length, products_data.length, "success", none, dur⟩]⟩)
/-! ## Category registry (`get_category_url`) -/

/-- One entry of the verified-categories cache
(`chaldal_verified_categories.json`), as `extract_and_verify_categories`
writes it (the `verified_at` timestamp is abstracted away). -/
structure VerifiedEntry where
  name : String
  url : String
  level : Nat
  parent : Option String
  product_count : Nat
  verified : Bool
deriving DecidableEq, Repr

/-- The cache is a JSON object mapping lower-cased names to entries; a
Python dict preserves insertion order, so it is modelled as an
association list in iteration order. -/
def Cache := List (String × VerifiedEntry)

/-- Python's `categories[key]` guarded by `key in categories`. -/
def lookupExact (cache : Cache) (key : String) : Option VerifiedEntry :=
  (cache.find? (fun p => p.1 == key)).map (fun p => p.2)

/-- The partial-match scan of `get_category_url`: the first cache entry
(in iteration order) whose key contains the lowered query or is
contained in it. -/
def lookupPartial (cache : Cache) (q : String) : Option (String × VerifiedEntry) :=
  cache.find? (fun p => substrOf q p.1 || substrOf p.1 q)

/-- Embedding of `get_category_url` (final-ai-agent.py lines 393-409),
with the loaded cache passed in: direct match on the lowered name,
then partial match, then the slugified fallback URL.  Always returns a
URL (the Python signature says `Optional[str]` but every path returns
a string). -/
def get_category_url (cache : Cache) (category_name : String) : String :=
  let q := lowerStr category_name
  match lookupExact cache q with
  | some data => "https://chaldal.com/" ++ data.url
  | none =>
    match lookupPartial cache q with
    | some kd => "https://chaldal.com/" ++ kd.2.url
    | none => "https://chaldal.com/" ++ slugify category_name

/-! ## Stored-data query (`view_scraped_data`) -/

/-- SQLite `column LIKE '%pat%'`: case-insensitive (ASCII) substring
match. -/
def sqliteLike (column pat : String) : Bool :=
  substrOf (lowerStr pat) (lowerStr column)

/-- The WHERE clause of `view_scraped_data`: `category LIKE ?` with
pattern `f"%{category}%"` when a filter is given, otherwise all rows. -/
def viewFilter (category : Option String) (db : List ProductRow) : List ProductRow :=
  match category with
  | some c => db.filter (fun r => sqliteLike r.category c)
  | none => db

/-- Insert a row into a list already sorted by descending `scraped_at`. -/
def insertDesc (r : ProductRow) : List ProductRow → List ProductRow
  | [] => [r]
  | x :: xs => if x.scraped_at ≤ r.scraped_at then r :: x :: xs else x :: insertDesc r xs

/-- `ORDER BY scraped_at DESC` (ties resolved deterministically; SQLite
leaves their order unspecified). -/
def sortDesc (l : List ProductRow) : List ProductRow :=
  l.foldr insertDesc []

/-- Embedding of the SELECT run by `view_scraped_data` (final-ai-agent.py
lines 649-687): filter by the optional category pattern, order by
`scraped_at DESC`, and return at most `limit` rows.  The surrounding
Python only formats these rows into a report string. -/
def view_scraped_data (category : Option String) (limit : Nat) (db : List ProductRow) : List ProductRow :=
  (sortDesc (viewFilter category db)).take limit

/-! ## Category verifier -/

/-- What the browser shows for one candidate category page: the page
title, the number of elements of class `product`, and the number of
breadcrumb/category/navigation elements (`.breadcrumb, .category,
.navigation`; only the companion script queries these). -/
structure PageObs where
  title : String
  productCount : Nat
  navCount : Nat
deriving DecidableEq, Repr

/-- The `is_valid` test of `extract_and_verify_categories`
(final-ai-agent.py lines 347-351): `"chaldal" in page_title or
has_products or "404" not in page_title`, on the lowered title. -/
def is_valid_category_page (pg : PageObs) : Bool :=
  substrOf "chaldal" (lowerStr pg.title) || decide (0 < pg.productCount) ||
    !(substrOf "404" (lowerStr pg.title))

/-- The validity test of `extract_specific_product_categories`
(extract_verified_categories.py line 123): `has_products or
has_category_content or "chaldal" in page_title.lower()`. -/
def is_valid_specific_page (pg : PageObs) : Bool :=
  decide (0 < pg.productCount) || decide (0 < pg.navCount) ||
    substrOf "chaldal" (lowerStr pg.title)

/-- The classification as the specification words it, for comparison
with the code: valid when the title contains the brand token, or at
least one product item is present, or category/breadcrumb navigation
markers are present. -/
def specValidClassification (pg : PageObs) : Bool :=
  substrOf "chaldal" (lowerStr pg.title) || decide (0 < pg.productCount) ||
    decide (0 < pg.navCount)

/-- A row of the hard-coded `category_mappings` table. -/
structure CategoryMapping where
  url : String
  level : Nat
  parent : Option String
deriving DecidableEq, Repr

/-- The `category_mappings` table of `extract_and_verify_categories`
(final-ai-agent.py lines 286-326), in iteration order. -/
def category_mappings : List (String × CategoryMapping) :=
  [("Food", ⟨"food", 0, none⟩),
   ("Cleaning Supplies", ⟨"cleaning", 0, none⟩),
   ("Personal Care", ⟨"personal-care", 0, none⟩),
   ("Health & Wellness", ⟨"hygiene", 0, none⟩),
   ("Baby Care", ⟨"babycare", 0, none⟩),
   ("Home & Kitchen", ⟨"home-kitchen", 0, none⟩),
   ("Stationery & Office", ⟨"stationery-office", 0, none⟩),
   ("Pet Care", ⟨"pet-care", 0, none⟩),
   ("Toys & Sports", ⟨"toys-sports", 0, none⟩),
   ("Beauty & MakeUp", ⟨"beauty", 0, none⟩),
   ("Fashion & Lifestyle", ⟨"fashion-lifestyle", 0, none⟩),
   ("Vehicle Essentials", ⟨"vehicle-essentials", 0, none⟩),
   ("Qurbani Special", ⟨"qurbani-special", 0, none⟩),
   ("Flash Sales", ⟨"flash-sales", 0, none⟩),
   ("Fruits & Vegetables", ⟨"fruits-vegetables", 1, some "Food"⟩),
   ("Meat & Fish", ⟨"meat-fish", 1, some "Food"⟩),
   ("Cooking", ⟨"cooking", 1, some "Food"⟩),
   ("Dairy & Eggs", ⟨"dairy", 1, some "Food"⟩),
   ("Breakfast", ⟨"breakfast", 1, some "Food"⟩),
   ("Snacks", ⟨"snacks", 1, some "Food"⟩),
   ("Beverages", ⟨"beverages", 1, some "Food"⟩),
   ("Baking", ⟨"baking-needs", 1, some "Food"⟩),
   ("Frozen & Canned", ⟨"frozen-foods", 1, some "Food"⟩),
   ("Rice", ⟨"rices", 2, some "Cooking"⟩),
   ("Dal", ⟨"dal-or-lentil", 2, some "Cooking"⟩),
   ("Oil", ⟨"oil", 2, some "Cooking"⟩),
   ("Spices", ⟨"spices", 2, some "Cooking"⟩),
   ("Salt & Sugar", ⟨"salt-sugar", 2, some "Cooking"⟩),
   ("Ghee", ⟨"ghee", 2, some "Cooking"⟩),
   ("Ready Mix", ⟨"ready-mix", 2, some "Cooking"⟩),
   ("Special Ingredients", ⟨"miscellaneous", 2, some "Cooking"⟩),
   ("Premium Ingredients", ⟨"premium-ingredients", 2, some "Cooking"⟩),
   ("Colors & Flavours", ⟨"colors-flavours", 2, some "Cooking"⟩),
   ("Shemai & Suji", ⟨"shemai-suji", 2, some "Cooking"⟩)]

/-- One iteration of the verification loop of
`extract_and_verify_categories`: `obs nm = none` models an exception
while verifying `nm` (logged and skipped with `continue`); on an
observation, a page passing `is_valid` contributes the entry stored
under the lowered name, and an invalid page contributes nothing. -/
def verifyEntry (obs : String → Option PageObs) (nm : String) (info : CategoryMapping) :
    Option (String × VerifiedEntry) :=
  match obs nm with
  | none => none
  | some pg =>
      if is_valid_category_page pg then
        some (lowerStr nm, ⟨nm, info.url, info.level, info.parent, pg.productCount, true⟩)
      else none

/-- Embedding of the classification-and-collection part of
`extract_and_verify_categories` (final-ai-agent.py lines 330-373): the
`verified_categories` map built while walking `category_mappings`. -/
def extract_and_verify_categories (obs : String → Option PageObs) :
    List (String × VerifiedEntry) :=
  category_mappings.filterMap (fun p => verifyEntry obs p.1 p.2)

/-- The `category_mappings` dict of the companion script
`extract_specific_product_categories`
(extract_verified_categories.py lines 39-79): candidate name to URL
suffix, in iteration order.  Its names differ from the agent's table
(e.g. "Dal or Lentil" instead of "Dal"). -/
def specific_category_mappings : List (String × String) :=
  [("Food", "food"),
   ("Fruits & Vegetables", "fruits-vegetables"),
   ("Meat & Fish", "meat-fish"),
   ("Cooking", "cooking"),
   ("Dairy & Eggs", "dairy"),
   ("Breakfast", "breakfast"),
   ("Snacks", "snacks"),
   ("Beverages", "beverages"),
   ("Baking", "baking-needs"),
   ("Frozen & Canned", "frozen-foods"),
   ("Spices", "spices"),
   ("Salt & Sugar", "salt-sugar"),
   ("Rice", "rices"),
   ("Dal or Lentil", "dal-or-lentil"),
   ("Ready Mix", "ready-mix"),
   ("Shemai & Suji", "shemai-suji"),
   ("Special Ingredients", "miscellaneous"),
   ("Oil", "oil"),
   ("Colors & Flavours", "colors-flavours"),
   ("Ghee", "ghee"),
   ("Premium Ingredients", "premium-ingredients"),
   ("Cleaning Supplies", "cleaning"),
   ("Personal Care", "personal-care"),
   ("Health & Wellness", "hygiene"),
   ("Baby Care", "babycare"),
   ("Home & Kitchen", "home-kitchen"),
   ("Stationery & Office", "stationery-office"),
   ("Pet Care", "pet-care"),
   ("Toys & Sports", "toys-sports"),
   ("Beauty & MakeUp", "beauty"),
   ("Fashion & Lifestyle", "fashion-lifestyle"),
   ("Vehicle Essentials", "vehicle-essentials"),
   ("Qurbani Special", "qurbani-special"),
   ("Flash Sales", "flash-sales")]

/-- The cooking-subcategory name list the script checks first to assign
level 2 (extract_verified_categories.py lines 114-116). -/
def specificLevel2Names : List String :=
  ["Spices", "Salt & Sugar", "Rice", "Dal or Lentil", "Ready Mix",
   "Shemai & Suji", "Special Ingredients", "Oil", "Colors & Flavours",
   "Ghee", "Premium Ingredients"]

/-- The food-subcategory name list the script checks second to assign
level 1 (lines 118-119). -/
def specificLevel1Names : List String :=
  ["Fruits & Vegetables", "Meat & Fish", "Cooking", "Dairy & Eggs",
   "Breakfast", "Snacks", "Beverages", "Baking", "Frozen & Canned"]

/-- The script's level computation: 2 for cooking sub-categories, 1 for
food sub-categories, 0 otherwise (lines 112-120). -/
def specificLevel (name : String) : Nat :=
  if name ∈ specificLevel2Names then 2
  else if name ∈ specificLevel1Names then 1
  else 0

/-- An entry of the script's `all_categories` output map (lines
124-131). -/
structure SpecificEntry where
  name : String
  url : String
  level : Nat
  full_url : String
  has_products : Bool
  verified : Bool
deriving DecidableEq, Repr

/-- One iteration of the script's verification loop (lines 84-144):
`obs nm = none` models an exception while testing `nm` (logged and
skipped with `continue`); a page passing the script's validity test
contributes the entry stored under the lowered name, and an invalid
page contributes nothing. -/
def verifySpecificEntry (obs : String → Option PageObs) (nm url_suffix : String) :
    Option (String × SpecificEntry) :=
  match obs nm with
  | none => none
  | some pg =>
      if is_valid_specific_page pg then
        some (lowerStr nm,
          ⟨nm, url_suffix, specificLevel nm, "https://chaldal.com/" ++ url_suffix,
           decide (0 < pg.productCount), true⟩)
      else none

/-- Embedding of the classification-and-collection part of the
companion script's `extract_specific_product_categories`
(extract_verified_categories.py lines 95-144): the `all_categories`
map built while walking its own candidate table. -/
def extract_specific_product_categories (obs : String → Option PageObs) :
    List (String × SpecificEntry) :=
  specific_category_mappings.filterMap (fun p => verifySpecificEntry obs p.1 p.2)
/-! ## Concrete fixtures used by the witnesses -/

/-- A small verified-categories cache holding the leaf category
"Rice". -/
def cache0 : Cache :=
  [("rice", ⟨"Rice", "rices", 2, some "Cooking", 50, true⟩),
   ("oil", ⟨"Oil", "oil", 2, some "Cooking", 30, true⟩)]

/-- A `products` row for the scenario database: category "rice",
scraped at time `i`. -/
def riceRow (i : Nat) : ProductRow :=
  ⟨"rice item " ++ toString i, "", "", "", "", "rice", "", "", none, i⟩

/-- A `products` row for the scenario database: category "dal",
scraped at time `i`. -/
def dalRow (i : Nat) : ProductRow :=
  ⟨"dal item " ++ toString i, "", "", "", "", "dal", "", "", none, i⟩

/-- The scenario database: ten "rice" rows scraped at times 1..10 and
three "dal" rows scraped at times 11..13. -/
def sampleDb : List ProductRow :=
  (List.range 10).map (fun i => riceRow (i + 1)) ++
    (List.range 3).map (fun i => dalRow (i + 11))

/-- An observation function for the verifier under which only the
candidate "Food" answers, with a live Chaldal page. -/
def obsFood : String → Option PageObs :=
  fun nm => if nm = "Food" then some ⟨"Chaldal Online Grocery", 5, 0⟩ else none

/-- An observation function for the verifier under which only the
candidate "Food" answers, with a 404 page bare of products, navigation
markers and the brand token. -/
def obs404 : String → Option PageObs :=
  fun nm => if nm = "Food" then some ⟨"404 Not Found", 0, 0⟩ else none

/-- An observation function for the companion script under which only
its candidate "Dal or Lentil" answers, with a live category page. -/
def obsDal : String → Option PageObs :=
  fun nm => if nm = "Dal or Lentil" then some ⟨"Dal or Lentil - Chaldal", 3, 1⟩ else none
/-! ## Supporting lemmas: rounding and the discount formula -/

lemma halfEvenRoundFrac_eq (N : ℤ) (D : ℕ) (hD : 0 < D) :
    halfEvenRoundFrac N D = halfEvenRound ((N : ℚ) / (D : ℚ)) := by
  have hDQ : (0:ℚ) < (D:ℚ) := by exact_mod_cast hD
  have hfl : ⌊(N : ℚ) / (D : ℚ)⌋ = N / (D:ℤ) := Rat.floor_intCast_div_natCast N D
  simp only [halfEvenRoundFrac, halfEvenRound, hfl]
  set f : ℤ := N / (D:ℤ) with hf
  have hr : (N:ℚ) / (D:ℚ) - (f:ℚ) = ((N - f * D : ℤ) : ℚ) / (D:ℚ) := by
    push_cast
    field_simp
    ring
  have h1 : ((N:ℚ) / (D:ℚ) - (f:ℚ) < 1/2) ↔ (2 * (N - f * (D:ℤ)) < (D:ℤ)) := by
    rw [hr, div_lt_iff₀ hDQ]
    constructor
    · intro h
      have h' : ((2 * (N - f * (D:ℤ)) : ℤ) : ℚ) < ((D:ℕ):ℚ) := by push_cast; push_cast at h; linarith
      exact_mod_cast h'
    · intro h
      have h' : ((2 * (N - f * (D:ℤ)) : ℤ) : ℚ) < ((D:ℕ):ℚ) := by exact_mod_cast h
      push_cast at h'; push_cast; linarith
  have h2 : (1/2 < (N:ℚ) / (D:ℚ) - (f:ℚ)) ↔ ((D:ℤ) < 2 * (N - f * (D:ℤ))) := by
    rw [hr, lt_div_iff₀ hDQ]
    constructor
    · intro h
      have h' : ((D:ℕ):ℚ) < ((2 * (N - f * (D:ℤ)) : ℤ) : ℚ) := by push_cast; push_cast at h; linarith
      exact_mod_cast h'
    · intro h
      have h' : ((D:ℕ):ℚ) < ((2 * (N - f * (D:ℤ)) : ℤ) : ℚ) := by exact_mod_cast h
      push_cast at h'; push_cast; linarith
  by_cases hc1 : 2 * (N - f * (D:ℤ)) < (D:ℤ)
  · rw [if_pos hc1, if_pos (h1.mpr hc1)]
  · rw [if_neg hc1, if_neg (fun h => hc1 (h1.mp h))]
    by_cases hc2 : (D:ℤ) < 2 * (N - f * (D:ℤ))
    · rw [if_pos hc2, if_pos (h2.mpr hc2)]
    · rw [if_neg hc2, if_neg (fun h => hc2 (h2.mp h))]

lemma discountTenths_eq (d o : DecNum) (ho : 0 < o.num) :
    discountTenths d o = halfEvenRound ((o.toRat - d.toRat) / o.toRat * 100 * 10) := by
  have hD : 0 < o.num * 10 ^ d.scale := by positivity
  rw [discountTenths, halfEvenRoundFrac_eq _ _ hD]
  congr 1
  have hoQ : ((o.num : ℚ)) ≠ 0 := by exact_mod_cast ho.ne'
  have h10d : ((10:ℚ)) ^ d.scale ≠ 0 := by positivity
  have h10o : ((10:ℚ)) ^ o.scale ≠ 0 := by positivity
  unfold DecNum.toRat
  push_cast
  field_simp
  ring

/-- C1: for a product element carrying both a discounted and an
original price, when both numeric coercions succeed and the original
is strictly positive, `extract_price_info` sets `discount_percentage`
to `((original - discounted) / original) * 100` formatted to one
decimal place with a trailing percent sign; when either coercion fails
or the original parses to zero, `discount_percentage` is left empty. -/
theorem extract_price_info_discount_spec (e : PriceElem)
    (hd : e.discountedPrice ≠ "") (ho : e.originalPrice ≠ "") :
    (∀ d o : DecNum, coerceNumeric e.discountedPrice = some d →
        coerceNumeric e.originalPrice = some o → 0 < o.num →
        (extract_price_info e).discount_percentage
          = formatPct1 ((o.toRat - d.toRat) / o.toRat * 100)) ∧
    (coerceNumeric e.discountedPrice = none →
        (extract_price_info e).discount_percentage = "") ∧
    (coerceNumeric e.originalPrice = none →
        (extract_price_info e).discount_percentage = "") ∧
    (∀ o : DecNum, coerceNumeric e.originalPrice = some o → o.num = 0 →
        (extract_price_info e).discount_percentage = "") := by
  simp only [extract_price_info, if_neg hd, if_neg ho]
  refine ⟨?_, ?_, ?_, ?_⟩
  · intro d o hd' ho' hpos
    simp only [hd', ho', if_pos hpos, formatPct1, discountTenths_eq d o hpos]
  · intro h
    simp only [h]
  · intro h
    simp only [h]
    cases coerceNumeric e.discountedPrice <;> rfl
  · intro o ho' hz
    simp only [ho']
    cases hcd : coerceNumeric e.discountedPrice with
    | none => rfl
    | some d => simp only [hz, if_neg (by omega : ¬ (0:ℕ) < 0)]

/-- Witness for C1: original 100 and discounted 75 yield "25.0%", and
an original of 0 leaves the discount empty. -/
theorem extract_price_info_discount_witness :
    (extract_price_info ⟨"Tk 75", "Tk 100", ""⟩).discount_percentage = "25.0%" ∧
    (extract_price_info ⟨"Tk 75", "Tk 0", ""⟩).discount_percentage = "" := by
  constructor
  · have h := (extract_price_info_discount_spec ⟨"Tk 75", "Tk 100", ""⟩ (by decide) (by decide)).1
      ⟨75, 0⟩ ⟨100, 0⟩ (by decide) (by decide) (by decide)
    rw [h, formatPct1, ← discountTenths_eq ⟨75, 0⟩ ⟨100, 0⟩ (by decide)]
    decide
  · exact (extract_price_info_discount_spec ⟨"Tk 75", "Tk 0", ""⟩ (by decide) (by decide)).2.2.2
      ⟨0, 0⟩ (by decide) rfl
/-! ## Scrape outcome and logging -/

/-- C5: when no product element appears within the wait budget
(`REQUEST_TIMEOUT`, 15 seconds), `scrape_product_data` catches the
`TimeoutException` and returns the "no products found" outcome string
for the category, leaving the database untouched — the timeout is a
recoverable result value, not a propagated exception. -/
theorem scrape_timeout_returns_message :
    REQUEST_TIMEOUT = 15 ∧
    ∀ (c : String) (t dur : Nat) (db : DB),
      scrape_product_data c .timeout t dur db
        = ("❌ No products found for category: " ++ c, db) :=
  ⟨rfl, fun _ _ _ _ => rfl⟩

/-- Counterexample to C4 as stated: the zero-items timeout invocation
appends no `scraping_logs` row at all (on an empty log table the log
stays empty), rather than one error row per invocation. -/
theorem scrape_log_counterexample :
    ((scrape_product_data "oil" .timeout 0 0 ⟨[], []⟩).2).logs = [] := rfl

/-- C4 (amended): `scrape_product_data` appends exactly one
`scraping_logs` row when the scrape crashes (an error row with zero
counts and the message) and when it succeeds with a non-empty
extraction (a success row with the found/saved counts); in the timeout
case and in the all-items-skipped case it appends none. -/
theorem scrape_log_rows (c msg : String) (items : List RawItem) (t dur : Nat) (db : DB) :
    ((scrape_product_data c (.crash msg) t dur db).2).logs
        = db.logs ++ [⟨c, 0, 0, "error", some msg, dur⟩] ∧
    ((scrape_product_data c .timeout t dur db).2).logs = db.logs ∧
    ((scrape_product_data c (.loaded items) t dur db).2).logs
        = (if (items.filterMap (extract_item c)).isEmpty then db.logs
           else db.logs ++
             [⟨c, items.length, (items.filterMap (extract_item c)).length, "success", none, dur⟩]) := by
  refine ⟨rfl, rfl, ?_⟩
  simp only [scrape_product_data]
  by_cases h : (items.filterMap (extract_item c)).isEmpty
  · rw [if_pos h, if_pos h]
  · rw [if_neg h, if_neg h]

/-- C10: an invocation whose extracted product list is empty — because
the initial wait timed out or because every found item was skipped —
performs no database write at all: the `products` rows previously
stored for the category are untouched and no `scraping_logs` row is
appended. -/
theorem scrape_empty_extraction_no_write (c : String) (items : List RawItem) (t dur : Nat) (db : DB) :
    ((scrape_product_data c .timeout t dur db).2 = db) ∧
    (items.filterMap (extract_item c) = [] →
      (scrape_product_data c (.loaded items) t dur db).2 = db) := by
  refine ⟨rfl, fun h => ?_⟩
  simp only [scrape_product_data, h]
  rfl

/-- Witness for C10: a page whose only item has an empty name leaves a
database with one stored row and one log row exactly as it was. -/
theorem scrape_empty_extraction_no_write_witness :
    (scrape_product_data "rice" (.loaded [⟨"", "Tk 5", "", "", "", "", ""⟩]) 7 3
        ⟨[riceRow 1], [⟨"dal", 4, 4, "success", none, 9⟩]⟩).2
      = ⟨[riceRow 1], [⟨"dal", 4, 4, "success", none, 9⟩]⟩ :=
  (scrape_empty_extraction_no_write "rice" [⟨"", "Tk 5", "", "", "", "", ""⟩] 7 3
    ⟨[riceRow 1], [⟨"dal", 4, 4, "success", none, 9⟩]⟩).2 (by decide)
/-! ## Supporting lemmas: the category-replacement step -/

lemma conflictsWith_of_subcategory_none (x r : ProductRow) (h : r.subcategory = none) :
    conflictsWith x r = false := by
  rw [conflictsWith, h]
  rcases x.subcategory with _ | a
  · simp [sameSubcat]
  · simp [sameSubcat]

lemma insertOrReplace_of_subcategory_none (db : List ProductRow) (r : ProductRow)
    (h : r.subcategory = none) : insertOrReplace db r = db ++ [r] := by
  have hall : ∀ x ∈ db, (!(conflictsWith x r)) = true :=
    fun x _ => by simp [conflictsWith_of_subcategory_none x r h]
  rw [insertOrReplace, List.filter_congr hall, List.filter_true]

lemma foldl_insertOrReplace (rows : List ProductRow) :
    ∀ acc : List ProductRow, (∀ r ∈ rows, r.subcategory = none) →
      rows.foldl insertOrReplace acc = acc ++ rows := by
  induction rows with
  | nil => intro acc _; simp
  | cons r rs ih =>
      intro acc h
      rw [List.foldl_cons, insertOrReplace_of_subcategory_none acc r (h r (by simp)),
        ih (acc ++ [r]) (fun x hx => h x (by simp [hx])), List.append_assoc]
      rfl

lemma replaceCategory_eq (c : String) (rows db : List ProductRow)
    (h : ∀ r ∈ rows, r.subcategory = none) :
    replaceCategory c rows db = db.filter (fun r => !(r.category == c)) ++ rows := by
  rw [replaceCategory, foldl_insertOrReplace rows _ h]

lemma extract_item_category (c : String) (it : RawItem) (p : ProductData)
    (h : extract_item c it = some p) : p.category = c := by
  rw [extract_item] at h
  by_cases hn : it.name = ""
  · rw [if_pos hn] at h; exact absurd h (by simp)
  · rw [if_neg hn] at h
    injection h with h'
    rw [← h']

lemma extraction_rows_subcategory_none (c : String) (items : List RawItem) (t : Nat) :
    ∀ r ∈ (items.filterMap (extract_item c)).map (rowOfData t), r.subcategory = none := by
  intro r hr
  rcases List.mem_map.mp hr with ⟨p, _, hp⟩
  rw [← hp]
  rfl

lemma extraction_rows_category (c : String) (items : List RawItem) (t : Nat) :
    ∀ r ∈ (items.filterMap (extract_item c)).map (rowOfData t), r.category = c := by
  intro r hr
  rcases List.mem_map.mp hr with ⟨p, hpmem, hp⟩
  rcases List.mem_filterMap.mp hpmem with ⟨it, _, hit⟩
  rw [← hp]
  exact extract_item_category c it p hit

lemma filter_replaceCategory (c : String) (items : List RawItem) (t : Nat)
    (db : List ProductRow) :
    (replaceCategory c ((items.filterMap (extract_item c)).map (rowOfData t)) db).filter
        (fun r => r.category == c)
      = (items.filterMap (extract_item c)).map (rowOfData t) := by
  rw [replaceCategory_eq c _ db (extraction_rows_subcategory_none c items t),
    List.filter_append]
  have h1 : (db.filter (fun r => !(r.category == c))).filter (fun r => r.category == c) = [] := by
    rw [List.filter_filter]
    refine List.eq_nil_iff_forall_not_mem.mpr (fun r hr => ?_)
    have := List.of_mem_filter hr
    revert this
    cases r.category == c <;> simp
  have h2 : ((items.filterMap (extract_item c)).map (rowOfData t)).filter
      (fun r => r.category == c) = (items.filterMap (extract_item c)).map (rowOfData t) := by
    refine List.filter_eq_self.mpr (fun r hr => ?_)
    have := extraction_rows_category c items t r hr
    simp [this]
  rw [h1, h2, List.nil_append]

lemma scrape_loaded_filter (c : String) (items : List RawItem) (t dur : Nat) (db : DB)
    (hne : items.filterMap (extract_item c) ≠ []) :
    ((scrape_product_data c (.loaded items) t dur db).2).products.filter
        (fun r => r.category == c)
      = (items.filterMap (extract_item c)).map (rowOfData t) := by
  simp only [scrape_product_data]
  rw [if_neg (by simpa using hne)]
  exact filter_replaceCategory c items t db.products

lemma rowContent_rowOfData (t : Nat) (p : ProductData) : rowContent (rowOfData t p) = p := rfl

/-- C2: replacing a category twice in succession with the same
extracted data is idempotent — after the second run the `products`
rows with that category agree with those after the first run in
content (all inserted columns except the insertion timestamp) and
hence in cardinality, whatever timestamps and prior database contents
are involved. -/
theorem replace_category_idempotent (c : String) (items : List RawItem)
    (t1 t2 d1 d2 : Nat) (db : DB)
    (hne : items.filterMap (extract_item c) ≠ []) :
    ((((scrape_product_data c (.loaded items) t2 d2
          ((scrape_product_data c (.loaded items) t1 d1 db).2)).2).products.filter
        (fun r => r.category == c)).map rowContent
      = ((((scrape_product_data c (.loaded items) t1 d1 db).2).products.filter
        (fun r => r.category == c)).map rowContent)) ∧
    ((((scrape_product_data c (.loaded items) t2 d2
          ((scrape_product_data c (.loaded items) t1 d1 db).2)).2).products.filter
        (fun r => r.category == c)).length
      = ((((scrape_product_data c (.loaded items) t1 d1 db).2).products.filter
        (fun r => r.category == c)).length)) := by
  have h1 := scrape_loaded_filter c items t1 d1 db hne
  have h2 := scrape_loaded_filter c items t2 d2
    ((scrape_product_data c (.loaded items) t1 d1 db).2) hne
  constructor
  · rw [h1, h2, List.map_map, List.map_map]
    exact List.map_congr_left (fun p _ => rfl)
  · rw [h1, h2, List.length_map, List.length_map]

/-- Witness for C2: scraping one concrete item into an empty database
twice at different timestamps leaves the same "rice" snapshot. -/
theorem replace_category_idempotent_witness :
    ((((scrape_product_data "rice" (.loaded [⟨"Basmati", "Tk 75", "Tk 100", "", "1 kg", "u", "i"⟩]) 2 9
          ((scrape_product_data "rice" (.loaded [⟨"Basmati", "Tk 75", "Tk 100", "", "1 kg", "u", "i"⟩]) 1 5 ⟨[], []⟩).2)).2).products.filter
        (fun r => r.category == "rice")).map rowContent
      = ((((scrape_product_data "rice" (.loaded [⟨"Basmati", "Tk 75", "Tk 100", "", "1 kg", "u", "i"⟩]) 1 5 ⟨[], []⟩).2).products.filter
        (fun r => r.category == "rice")).map rowContent)) :=
  (replace_category_idempotent "rice" [⟨"Basmati", "Tk 75", "Tk 100", "", "1 kg", "u", "i"⟩]
    1 2 5 9 ⟨[], []⟩ (by decide)).1
/-! ## Item skipping -/

lemma extract_item_some (c : String) (it : RawItem) (p : ProductData)
    (h : extract_item c it = some p) : it.name ≠ "" ∧ p.name = it.name := by
  rw [extract_item] at h
  by_cases hn : it.name = ""
  · rw [if_pos hn] at h; exact absurd h (by simp)
  · rw [if_neg hn] at h
    injection h with h'
    exact ⟨hn, by rw [← h']⟩

lemma filterMap_extract_length (c : String) (items : List RawItem) :
    (items.filterMap (extract_item c)).length
      = (items.filter (fun it => !(it.name == ""))).length := by
  induction items with
  | nil => rfl
  | cons it its ih =>
      by_cases hn : it.name = ""
      · rw [List.filterMap_cons, List.filter_cons]
        simp only [extract_item, if_pos hn, hn]
        simpa using ih
      · rw [List.filterMap_cons, List.filter_cons]
        simp only [extract_item, if_neg hn]
        have : (!(it.name == "")) = true := by simp [hn]
        rw [this]
        simp only [if_true, List.length_cons]
        rw [ih]

/-- C6: an item whose name is empty or missing is skipped — excluded
from the extracted list, so the extracted (and saved) count is the
count of items with a non-empty name, and every row the scrape adds to
the `products` table has a non-empty name — while an item with a name
but any other field missing is kept, with the empty value standing in
for each missing field. -/
theorem skip_nameless_items (c : String) (items : List RawItem) (t dur : Nat) (db : DB) :
    (∀ it : RawItem, extract_item c it = none ↔ it.name = "") ∧
    (∀ p ∈ items.filterMap (extract_item c), p.name ≠ "") ∧
    ((items.filterMap (extract_item c)).length
        = (items.filter (fun it => !(it.name == ""))).length) ∧
    (∀ it : RawItem, it.name ≠ "" →
        extract_item c it = some ⟨it.name,
          (extract_price_info ⟨it.discountedPrice, it.originalPrice, it.regularPrice⟩).price,
          (extract_price_info ⟨it.discountedPrice, it.originalPrice, it.regularPrice⟩).original_price,
          (extract_price_info ⟨it.discountedPrice, it.originalPrice, it.regularPrice⟩).discount_percentage,
          it.subText, c, it.productUrl, it.imageUrl⟩) ∧
    (∀ r ∈ ((scrape_product_data c (.loaded items) t dur db).2).products,
        r ∈ db.products ∨ r.name ≠ "") := by
  refine ⟨?_, ?_, filterMap_extract_length c items, ?_, ?_⟩
  · intro it
    by_cases hn : it.name = ""
    · simp [extract_item, hn]
    · simp [extract_item, hn]
  · intro p hp
    rcases List.mem_filterMap.mp hp with ⟨it, _, hit⟩
    rcases extract_item_some c it p hit with ⟨hn, he⟩
    rw [he]
    exact hn
  · intro it hn
    simp only [extract_item, if_neg hn]
  · intro r hr
    by_cases hemp : (items.filterMap (extract_item c)).isEmpty
    · left
      simpa [scrape_product_data, hemp] using hr
    · simp only [scrape_product_data, if_neg hemp] at hr
      rw [replaceCategory_eq c _ db.products
        (extraction_rows_subcategory_none c items t)] at hr
      rcases List.mem_append.mp hr with hl | hrr
      · exact Or.inl (List.mem_of_mem_filter hl)
      · right
        rcases List.mem_map.mp hrr with ⟨p, hpmem, hp⟩
        rcases List.mem_filterMap.mp hpmem with ⟨it, _, hit⟩
        rcases extract_item_some c it p hit with ⟨hn, he⟩
        rw [← hp]
        show p.name ≠ ""
        rw [he]
        exact hn

/-- Witness for C6: a nameless item is skipped while a named item with
every other field missing is kept with empty values. -/
theorem skip_nameless_items_witness :
    extract_item "rice" ⟨"", "Tk 5", "Tk 9", "", "500 g", "u", "i"⟩ = none ∧
    extract_item "rice" ⟨"Basmati", "", "", "", "", "", ""⟩
      = some ⟨"Basmati", "", "", "", "", "rice", "", ""⟩ := by
  have h := skip_nameless_items "rice" [] 0 0 ⟨[], []⟩
  refine ⟨(h.1 _).mpr rfl, ?_⟩
  have h4 := h.2.2.2.1 ⟨"Basmati", "", "", "", "", "", ""⟩ (by decide)
  rw [h4]
  decide
/-! ## Category URL resolution -/

/-- C3: `get_category_url` always returns a URL on the site host and
resolves in three stages: an exact match of the lowered query against
the cache keys wins; otherwise the first cache entry, in iteration
order, whose key contains the lowered query or is contained in it
wins; otherwise the lowered, hyphenated slug of the query is used —
and no input fails. -/
theorem get_category_url_spec (cache : Cache) (q : String) :
    (∃ rest, get_category_url cache q = "https://chaldal.com/" ++ rest) ∧
    (∀ data : VerifiedEntry, lookupExact cache (lowerStr q) = some data →
        get_category_url cache q = "https://chaldal.com/" ++ data.url) ∧
    (lookupExact cache (lowerStr q) = none →
      ∀ kd : String × VerifiedEntry, lookupPartial cache (lowerStr q) = some kd →
        get_category_url cache q = "https://chaldal.com/" ++ kd.2.url) ∧
    (lookupExact cache (lowerStr q) = none →
      lookupPartial cache (lowerStr q) = none →
        get_category_url cache q = "https://chaldal.com/" ++ slugify q) := by
  refine ⟨?_, ?_, ?_, ?_⟩
  · rw [get_category_url]
    cases h1 : lookupExact cache (lowerStr q) with
    | some data => exact ⟨data.url, rfl⟩
    | none =>
        cases h2 : lookupPartial cache (lowerStr q) with
        | some kd => exact ⟨kd.2.url, rfl⟩
        | none => exact ⟨slugify q, rfl⟩
  · intro data h
    rw [get_category_url, h]
  · intro h1 kd h2
    rw [get_category_url, h1, h2]
  · intro h1 h2
    rw [get_category_url, h1, h2]

/-- Witness for C3: with "Rice" cached, the query "Rice" resolves to
the cached URL `rices`; the unknown query "zzz-nonexistent" resolves
to its slug. -/
theorem get_category_url_witness :
    get_category_url cache0 "Rice" = "https://chaldal.com/rices" ∧
    get_category_url cache0 "zzz-nonexistent" = "https://chaldal.com/zzz-nonexistent" := by
  constructor
  · exact (get_category_url_spec cache0 "Rice").2.1 ⟨"Rice", "rices", 2, some "Cooking", 50, true⟩
      (by decide)
  · have h := (get_category_url_spec cache0 "zzz-nonexistent").2.2.2 (by decide) (by decide)
    rw [h]
    decide
/-! ## Scroll-loop termination -/

lemma scrollGo_le_max (heights : Nat → Nat) (ms : Nat) :
    ∀ (fuel count noChange last : Nat), ms - count ≤ fuel → count ≤ ms →
      scrollGo heights ms last count noChange ≤ ms := by
  intro fuel
  induction fuel with
  | zero =>
      intro count noChange last hf hc
      rw [scrollGo]
      split
      · next h => exact absurd h.1 (by omega)
      · exact hc
  | succ n ih =>
      intro count noChange last hf hc
      rw [scrollGo]
      split
      · next h => exact ih (count + 1) _ _ (by omega) (by omega)
      · exact hc

lemma scrollGo_plateau (heights : Nat → Nat) (ms j : Nat)
    (h1 : heights (j + 1) = heights j) (h2 : heights (j + 2) = heights (j + 1))
    (h3 : heights (j + 3) = heights (j + 2)) :
    ∀ (fuel count noChange : Nat), ms - count ≤ fuel → count ≤ j + 3 →
      (j + 1 ≤ count → count - j ≤ noChange) →
      scrollGo heights ms (heights count) count noChange ≤ j + 3 := by
  intro fuel
  induction fuel with
  | zero =>
      intro count noChange hf hcj _
      rw [scrollGo]
      split
      · next h => exact absurd h.1 (by omega)
      · exact hcj
  | succ n ih =>
      intro count noChange hf hcj hinv
      rw [scrollGo]
      split
      · next h =>
          have hub : count ≤ j + 2 := by
            by_cases hge : j + 1 ≤ count
            · have := hinv hge; omega
            · omega
          by_cases hge : j ≤ count
          · have heq : heights (count + 1) = heights count := by
              have hc3 : count = j ∨ count = j + 1 ∨ count = j + 2 := by omega
              rcases hc3 with h' | h' | h' <;> rw [h']
              · exact h1
              · exact h2
              · exact h3
            show scrollGo heights ms (heights (count + 1)) (count + 1)
                (if heights (count + 1) = heights count then noChange + 1 else 0) ≤ j + 3
            rw [if_pos heq]
            refine ih (count + 1) (noChange + 1) (by omega) (by omega) (fun _ => ?_)
            by_cases hj1 : j + 1 ≤ count
            · have := hinv hj1; omega
            · omega
          · exact ih (count + 1) _ (by omega) (by omega) (fun hc => by omega)
      · next h => exact hcj

/-- C7: the scroll loop runs at most `max_scrolls` rounds (default
`MAX_SCROLLS = 20`) however the page height behaves, and once three
consecutive rounds observe no height change — heights `j`, `j+1`,
`j+2`, `j+3` all equal — it has stopped by round `j + 3`, hence before
`max_scrolls` whenever `j + 3` is smaller. -/
theorem scroll_to_load_products_bounds (heights : Nat → Nat) (max_scrolls j : Nat) :
    MAX_SCROLLS = 20 ∧
    scroll_to_load_products heights max_scrolls ≤ max_scrolls ∧
    (heights (j + 1) = heights j → heights (j + 2) = heights (j + 1) →
      heights (j + 3) = heights (j + 2) →
      scroll_to_load_products heights max_scrolls ≤ j + 3) := by
  refine ⟨rfl, ?_, ?_⟩
  · simp only [scroll_to_load_products]
    exact scrollGo_le_max heights max_scrolls max_scrolls 0 0 (heights 0) (by omega) (by omega)
  · intro h1 h2 h3
    simp only [scroll_to_load_products]
    exact scrollGo_plateau heights max_scrolls j h1 h2 h3 max_scrolls 0 0 (by omega) (by omega)
      (by omega)

/-- Witness for C7: on a page whose height never changes, twenty
permitted rounds stop after at most three. -/
theorem scroll_to_load_products_bounds_witness :
    scroll_to_load_products (fun _ => 100) 20 ≤ 20 ∧
    scroll_to_load_products (fun _ => 100) 20 ≤ 3 :=
  ⟨(scroll_to_load_products_bounds (fun _ => 100) 20 0).2.1,
   (scroll_to_load_products_bounds (fun _ => 100) 20 0).2.2 rfl rfl rfl⟩
/-! ## Stored-data query -/

lemma length_insertDesc (r : ProductRow) (l : List ProductRow) :
    (insertDesc r l).length = l.length + 1 := by
  induction l with
  | nil => rfl
  | cons x xs ih =>
      rw [insertDesc]
      by_cases hc : x.scraped_at ≤ r.scraped_at
      · rw [if_pos hc]; rfl
      · rw [if_neg hc, List.length_cons, ih, List.length_cons]

lemma mem_insertDesc (y r : ProductRow) (l : List ProductRow) :
    y ∈ insertDesc r l ↔ y = r ∨ y ∈ l := by
  induction l with
  | nil => simp [insertDesc]
  | cons x xs ih =>
      rw [insertDesc]
      by_cases hc : x.scraped_at ≤ r.scraped_at
      · rw [if_pos hc]
        simp [List.mem_cons]
      · rw [if_neg hc]
        simp only [List.mem_cons, ih]
        tauto

lemma length_sortDesc (l : List ProductRow) : (sortDesc l).length = l.length := by
  induction l with
  | nil => rfl
  | cons x xs ih =>
      rw [sortDesc, List.foldr_cons, length_insertDesc]
      rw [sortDesc] at ih
      rw [ih, List.length_cons]

lemma mem_sortDesc (y : ProductRow) (l : List ProductRow) : y ∈ sortDesc l ↔ y ∈ l := by
  induction l with
  | nil => simp [sortDesc]
  | cons x xs ih =>
      rw [sortDesc, List.foldr_cons, mem_insertDesc]
      rw [sortDesc] at ih
      rw [ih, List.mem_cons]

lemma pairwise_insertDesc (r : ProductRow) (l : List ProductRow)
    (h : l.Pairwise (fun a b => b.scraped_at ≤ a.scraped_at)) :
    (insertDesc r l).Pairwise (fun a b => b.scraped_at ≤ a.scraped_at) := by
  induction l with
  | nil => simp [insertDesc]
  | cons x xs ih =>
      rw [List.pairwise_cons] at h
      rcases h with ⟨hx, hxs⟩
      rw [insertDesc]
      by_cases hc : x.scraped_at ≤ r.scraped_at
      · rw [if_pos hc]
        refine List.Pairwise.cons ?_ (List.Pairwise.cons hx hxs)
        intro y hy
        rcases List.mem_cons.mp hy with h' | h'
        · rw [h']; exact hc
        · exact le_trans (hx y h') hc
      · rw [if_neg hc]
        refine List.Pairwise.cons ?_ (ih hxs)
        intro y hy
        rcases (mem_insertDesc y r xs).mp hy with h' | h'
        · rw [h']; omega
        · exact hx y h'

lemma pairwise_sortDesc (l : List ProductRow) :
    (sortDesc l).Pairwise (fun a b => b.scraped_at ≤ a.scraped_at) := by
  induction l with
  | nil => simp [sortDesc]
  | cons x xs ih =>
      rw [sortDesc, List.foldr_cons]
      rw [sortDesc] at ih
      exact pairwise_insertDesc x _ ih

/-- C8: the query behind `view_scraped_data` returns at most `limit`
rows (exactly `limit` when at least that many match), every returned
row matches the category filter and comes from the table unchanged
(the query is read-only), the rows are ordered most-recently-scraped
first, and on the scenario database — ten "rice" rows scraped at times
1..10 and three "dal" rows — `view_scraped_data ("rice", 5)` returns
exactly the five "rice" rows with timestamps 10 down to 6. -/
theorem view_scraped_data_spec (c : String) (limit : Nat) (db : List ProductRow) :
    ((view_scraped_data (some c) limit db).length
        = min limit (db.filter (fun r => sqliteLike r.category c)).length) ∧
    (∀ r ∈ view_scraped_data (some c) limit db,
        sqliteLike r.category c = true ∧ r ∈ db) ∧
    ((view_scraped_data (some c) limit db).Pairwise
        (fun a b => b.scraped_at ≤ a.scraped_at)) ∧
    ((view_scraped_data (some "rice") 5 sampleDb).map (fun r => r.category)
        = ["rice", "rice", "rice", "rice", "rice"] ∧
      (view_scraped_data (some "rice") 5 sampleDb).map (fun r => r.scraped_at)
        = [10, 9, 8, 7, 6]) := by
  refine ⟨?_, ?_, ?_, by decide, by decide⟩
  · rw [view_scraped_data, viewFilter, List.length_take, length_sortDesc]
  · intro r hr
    have hr' : r ∈ sortDesc (viewFilter (some c) db) :=
      List.take_subset limit _ hr
    rw [mem_sortDesc, viewFilter] at hr'
    rcases List.mem_filter.mp hr' with ⟨hmem, hpred⟩
    exact ⟨hpred, hmem⟩
  · exact List.Pairwise.sublist (List.take_sublist limit _) (pairwise_sortDesc _)

/-- Witness for C8: the scenario query returns five rows, and the
most recent "rice" row both matches the filter and belongs to the
scenario table. -/
theorem view_scraped_data_witness :
    (view_scraped_data (some "rice") 5 sampleDb).length = 5 ∧
    (sqliteLike (riceRow 10).category "rice" = true ∧ riceRow 10 ∈ sampleDb) := by
  refine ⟨?_, (view_scraped_data_spec "rice" 5 sampleDb).2.1 (riceRow 10) (by decide)⟩
  rw [(view_scraped_data_spec "rice" 5 sampleDb).1]
  decide
/-! ## Category verification -/

/-- Counterexample to C9 as stated: a page whose title lacks the brand
token and the marker "404", with no product items and no navigation
markers, is classified valid by `extract_and_verify_categories`
although the claimed classification rule calls it invalid. -/
theorem verify_classification_counterexample :
    is_valid_category_page ⟨"Server Error", 0, 0⟩ = true ∧
    specValidClassification ⟨"Server Error", 0, 0⟩ = false := by decide

/-- C9 (amended): the agent's verifier classifies a candidate page as
valid exactly when the title contains the brand token, or at least one
product item is present, or the title does not contain "404" — the
navigation-marker disjunct of the claim holds only for the companion
script's verifier, whose test coincides with the claimed rule.  In
both, every invalid or failing entry is excluded from the output map
entirely, so the verified keys are a subset of the lowered candidate
names. -/
theorem verify_classification_spec (obs : String → Option PageObs) :
    (∀ pg : PageObs, is_valid_category_page pg = true ↔
        (substrOf "chaldal" (lowerStr pg.title) = true ∨ 0 < pg.productCount ∨
          substrOf "404" (lowerStr pg.title) = false)) ∧
    (∀ pg : PageObs, is_valid_specific_page pg = specValidClassification pg) ∧
    (∀ (nm : String) (info : CategoryMapping) (pg : PageObs), obs nm = some pg →
        is_valid_category_page pg = false → verifyEntry obs nm info = none) ∧
    (∀ e ∈ extract_and_verify_categories obs,
        e.1 ∈ category_mappings.map (fun p => lowerStr p.1)) ∧
    (∀ (nm url_suffix : String) (pg : PageObs), obs nm = some pg →
        is_valid_specific_page pg = false → verifySpecificEntry obs nm url_suffix = none) ∧
    (∀ e ∈ extract_specific_product_categories obs,
        e.1 ∈ specific_category_mappings.map (fun p => lowerStr p.1)) := by
  refine ⟨?_, ?_, ?_, ?_, ?_, ?_⟩
  · intro pg
    simp only [is_valid_category_page, Bool.or_eq_true, decide_eq_true_eq,
      Bool.not_eq_true']
    tauto
  · intro pg
    simp only [is_valid_specific_page, specValidClassification]
    cases substrOf "chaldal" (lowerStr pg.title) <;>
      cases decide (0 < pg.productCount) <;>
        cases decide (0 < pg.navCount) <;> rfl
  · intro nm info pg h hv
    simp only [verifyEntry, h]
    rw [if_neg (by simp [hv])]
  · intro e he
    rcases List.mem_filterMap.mp he with ⟨p, hp, hv⟩
    have he1 : e.1 = lowerStr p.1 := by
      simp only [verifyEntry] at hv
      split at hv
      · exact absurd hv (by simp)
      · split at hv
        · injection hv with h'
          rw [← h']
        · exact absurd hv (by simp)
    rw [he1]
    exact List.mem_map.mpr ⟨p, hp, rfl⟩
  · intro nm url_suffix pg h hv
    simp only [verifySpecificEntry, h]
    rw [if_neg (by simp [hv])]
  · intro e he
    rcases List.mem_filterMap.mp he with ⟨p, hp, hv⟩
    have he1 : e.1 = lowerStr p.1 := by
      simp only [verifySpecificEntry] at hv
      split at hv
      · exact absurd hv (by simp)
      · split at hv
        · injection hv with h'
          rw [← h']
        · exact absurd hv (by simp)
    rw [he1]
    exact List.mem_map.mpr ⟨p, hp, rfl⟩

/-- Witness for C9: a bare 404 page for the candidate "Food" is
excluded by the agent's verifier and by the companion script's, and
under live observations each collection loop stores its entry under a
key drawn from its own candidate table ("food" for the agent, "dal or
lentil" for the script). -/
theorem verify_classification_witness :
    verifyEntry obs404 "Food" ⟨"food", 0, none⟩ = none ∧
    ("food", (⟨"Food", "food", 0, none, 5, true⟩ : VerifiedEntry)).1
        ∈ category_mappings.map (fun p => lowerStr p.1) ∧
    verifySpecificEntry obs404 "Food" "food" = none ∧
    ("dal or lentil", (⟨"Dal or Lentil", "dal-or-lentil", 2,
          "https://chaldal.com/dal-or-lentil", true, true⟩ : SpecificEntry)).1
        ∈ specific_category_mappings.map (fun p => lowerStr p.1) := by
  refine ⟨?_, ?_, ?_, ?_⟩
  · exact (verify_classification_spec obs404).2.2.1 "Food" ⟨"food", 0, none⟩
      ⟨"404 Not Found", 0, 0⟩ (by decide) (by decide)
  · exact (verify_classification_spec obsFood).2.2.2.1
      ("food", ⟨"Food", "food", 0, none, 5, true⟩) (by decide)
  · exact (verify_classification_spec obs404).2.2.2.2.1 "Food" "food"
      ⟨"404 Not Found", 0, 0⟩ (by decide) (by decide)
  · exact (verify_classification_spec obsDal).2.2.2.2.2
      ("dal or lentil", ⟨"Dal or Lentil", "dal-or-lentil", 2,
        "https://chaldal.com/dal-or-lentil", true, true⟩) (by decide)
